import Mathlib

/-!
Verification of the audio speaker configuration module
(`src/ruchy/src/audio_speakers.rs`) of the ubuntu-config-scripts repository.

Text is modelled as `List Char` so that every operation is a structurally
recursive, kernel-evaluable function.  The helper functions below are
faithful translations of the Rust standard library primitives the module
uses (`str::lines`, `str::split`, `str::split_whitespace`, `str::trim`,
`str::split_once`, `str::contains`, `i32::from_str`), and the module-level
functions are translated one-to-one from the source.

External processes (`pactl list sinks`, `pactl get-default-sink`,
`pactl set-default-sink <name>`) are modelled by a `Gateway` over an
abstract world type: each query returns either a spawn-level error message
or a captured `CmdOutput`, and the mutating command additionally produces a
successor world.  `configure_speaker` returns, besides its result, the
final world and the ordered list of arguments of the `set-default-sink`
commands it issued, so that rollback behaviour is observable.
-/

set_option maxRecDepth 16384

namespace AudioSpeakers

abbrev Str := List Char

/-- Conversion from a Lean string literal to the `List Char` text model. -/
def str (s : String) : Str := s.toList

/-- Rust `char::is_whitespace`: the Unicode White_Space property. -/
def isRustWhitespace (c : Char) : Bool :=
  let n := c.toNat
  (9 ≤ n && n ≤ 13) || n == 32 || n == 133 || n == 160 || n == 5760 ||
  (8192 ≤ n && n ≤ 8202) || n == 8232 || n == 8233 || n == 8239 ||
  n == 8287 || n == 12288

/-- Rust `str::starts_with(pat)`: `pat` begins the text `s`. -/
def startsWithList (pat s : Str) : Bool :=
  match pat, s with
  | [], _ => true
  | _ :: _, [] => false
  | a :: as, b :: bs => a == b && startsWithList as bs

/-- Worker for `splitOnStr`; the fuel `s.length` always suffices because a
nonempty separator consumes at least one character per match. -/
def splitOnGo (sep : Str) : Nat → Str → Str → List Str
  | _, [], acc => [acc.reverse]
  | 0, s, acc => [acc.reverse ++ s]
  | fuel + 1, c :: rest, acc =>
    if startsWithList sep (c :: rest) then
      acc.reverse :: splitOnGo sep fuel (List.drop sep.length (c :: rest)) []
    else
      splitOnGo sep fuel rest (c :: acc)

/-- Rust `str::split(sep)` for a literal separator, collected to a list. -/
def splitOnStr (s sep : Str) : List Str :=
  if sep.isEmpty then [s] else splitOnGo sep s.length s []

/-- Leading-whitespace removal (Rust `str::trim_start`). -/
def trimLeftList (s : Str) : Str := s.dropWhile isRustWhitespace

/-- Trailing-whitespace removal (Rust `str::trim_end`). -/
def trimRightList (s : Str) : Str :=
  (s.reverse.dropWhile isRustWhitespace).reverse

/-- Rust `str::trim`: removes leading and trailing whitespace. -/
def trimList (s : Str) : Str := trimRightList (trimLeftList s)

/-- Worker for `rustLines`: Rust `str::split_inclusive('\n')`, each piece
keeping its terminating newline; an empty trailing piece is not produced. -/
def splitInclusiveNl : Str → Str → List Str
  | [], acc => if acc.isEmpty then [] else [acc.reverse]
  | c :: rest, acc =>
    if c == '\n' then (acc.reverse ++ ['\n']) :: splitInclusiveNl rest []
    else splitInclusiveNl rest (c :: acc)

/-- Line post-processing of Rust `str::lines`: strip one trailing `'\n'`,
and, only when one was stripped, one trailing `'\r'` before it. -/
def rustLineMap (line : Str) : Str :=
  if line.getLast? == some '\n' then
    let stripped := line.take (line.length - 1)
    if stripped.getLast? == some '\r' then stripped.take (stripped.length - 1)
    else stripped
  else line

/-- Rust `str::lines`, collected to a list. -/
def rustLines (s : Str) : List Str := (splitInclusiveNl s []).map rustLineMap

/-- Worker for `splitWhitespaceList`: split at each whitespace character. -/
def splitByWSGo : Str → Str → List Str
  | [], acc => [acc.reverse]
  | c :: rest, acc =>
    if isRustWhitespace c then acc.reverse :: splitByWSGo rest []
    else splitByWSGo rest (c :: acc)

/-- Rust `str::split_whitespace`, collected to a list: maximal nonempty
runs of non-whitespace characters. -/
def splitWhitespaceList (s : Str) : List Str :=
  (splitByWSGo s []).filter (fun t => !t.isEmpty)

/-- Rust `str::split_once(c)`: split at the first occurrence of `c`. -/
def splitOnceChar (c : Char) : Str → Option (Str × Str)
  | [] => none
  | a :: as =>
    if a == c then some ([], as)
    else (splitOnceChar c as).map (fun p => (a :: p.1, p.2))

/-- Rust `str::contains(c)` for a character pattern. -/
def containsCharList (s : Str) (c : Char) : Bool := s.any (fun a => a == c)

/-- Rust `str::contains(pat)` for a literal substring pattern. -/
def containsSubList : Str → Str → Bool
  | [], pat => pat.isEmpty
  | c :: rest, pat => startsWithList pat (c :: rest) || containsSubList rest pat

/-- Digit-accumulation worker for `parseI32`; fails on any non-digit. -/
def parseDigitsGo : Str → Nat → Option Nat
  | [], acc => some acc
  | c :: rest, acc =>
    if c.isDigit then parseDigitsGo rest (acc * 10 + (c.toNat - 48)) else none

/-- All-digit parse of a nonempty text (the digit part of `i32::from_str`). -/
def parseDigits (s : Str) : Option Nat :=
  if s.isEmpty then none else parseDigitsGo s 0

/-- Rust `str::parse::<i32>()`: optional sign, one or more ASCII digits,
value within the `i32` range; anything else fails. -/
def parseI32 (s : Str) : Option Int :=
  let signed : Option Int :=
    match s with
    | '-' :: rest => (parseDigits rest).map (fun n => -(n : Int))
    | '+' :: rest => (parseDigits rest).map (fun n => (n : Int))
    | _ => (parseDigits s).map (fun n => (n : Int))
  signed.bind (fun v =>
    if -2147483648 ≤ v && v ≤ 2147483647 then some v else none)

/-- One audio output endpoint, as in the source `AudioDevice` struct. -/
structure AudioDevice where
  id : Str
  name : Str
  description : Str
  is_default : Bool
deriving DecidableEq, Repr

/-- The current output configuration, as in the source `SpeakerConfig`. -/
structure SpeakerConfig where
  device_id : Str
  volume : Int
  muted : Bool
deriving DecidableEq, Repr

/-- The closed error taxonomy, as in the source `ConfigError` enum. -/
inductive ConfigError where
  | DeviceNotFound : Str → ConfigError
  | CommandFailed : Str → ConfigError
  | InvalidState : Str → ConfigError
  | PermissionDenied : ConfigError
deriving DecidableEq, Repr

/-- Captured output of one external command: exit-status success flag,
stdout and stderr text. -/
structure CmdOutput where
  success : Bool
  stdout : Str
  stderr : Str
deriving DecidableEq, Repr

/-- Result of attempting to run one external command: a spawn-level error
message, or the captured output. -/
abbrev SpawnResult := Except Str CmdOutput

/-- The external command gateway over an abstract world `W`.  The two
queries do not change the world; the mutating `set-default-sink` command
returns its spawn result together with the successor world. -/
structure Gateway (W : Type) where
  listSinks : W → SpawnResult
  getDefaultSink : W → SpawnResult
  setDefaultSink : W → Str → SpawnResult × W

/-- Source `extract_field` (lines 291-299): first line whose trimmed form
starts with the label, split once at the first colon, trimmed remainder
(empty when the line has no colon). -/
def extract_field (text field : Str) : Option Str :=
  ((rustLines text).find? (fun line => startsWithList field (trimList line))).map
    (fun line =>
      match splitOnceChar ':' line with
      | some p => trimList p.2
      | none => [])

/-- Body of the per-block parsing loop of `detect_audio_devices`
(source lines 84-116): skip whitespace-only blocks, extract the id as the
first whitespace-delimited token of the first line, fall back the name to
`sink-<id>` and the description to the name, mark default by name equality,
and drop the block when the id is empty. -/
def parseSinkBlock (default_sink sink_block : Str) : Option AudioDevice :=
  if (trimList sink_block).isEmpty then none
  else
    let id := ((rustLines sink_block).head?.bind
      (fun line => (splitWhitespaceList line).head?)).getD []
    let name := (extract_field sink_block (str "Name:")).getD (str "sink-" ++ id)
    let description := (extract_field sink_block (str "Description:")).getD name
    let is_default := name == default_sink
    if id.isEmpty then none
    else some ⟨id, name, description, is_default⟩

/-- Pure parsing core of `detect_audio_devices`: split the listing on the
`"Sink #"` marker and run the block loop in encounter order. -/
def parseSinks (stdout default_sink : Str) : List AudioDevice :=
  (splitOnStr stdout (str "Sink #")).filterMap (parseSinkBlock default_sink)

/-- Source `detect_audio_devices` (lines 56-119): run `pactl list sinks`,
fail on spawn error or non-success exit; run `pactl get-default-sink`,
fail on spawn error but treat a non-success exit as an empty default name;
then parse. -/
def detect_audio_devices {W : Type} (g : Gateway W) (w : W) :
    Except ConfigError (List AudioDevice) :=
  match g.listSinks w with
  | .error e => .error (.CommandFailed e)
  | .ok output =>
    if !output.success then .error (.CommandFailed output.stderr)
    else
      match g.getDefaultSink w with
      | .error e => .error (.CommandFailed e)
      | .ok default_output =>
        let default_sink :=
          if default_output.success then trimList default_output.stdout else []
        .ok (parseSinks output.stdout default_sink)

/-- Volume extraction of `get_current_speaker_config` (lines 226-238):
text before the first `'%'` of the `Volume:` value, its last
whitespace-delimited token parsed as `i32`, default 100, clamped to
`[0, 100]`. -/
def volumeOf (sink_block : Str) : Int :=
  let volume :=
    ((extract_field sink_block (str "Volume:")).bind (fun vol_line =>
      (splitWhitespaceList ((splitOnStr vol_line (str "%")).headD [])).getLast?.bind
        parseI32)).getD 100
  max 0 (min 100 volume)

/-- Mute extraction of `get_current_speaker_config` (lines 241-243). -/
def mutedOf (sink_block : Str) : Bool :=
  ((extract_field sink_block (str "Mute:")).map
    (fun mute_val => trimList mute_val == str "yes")).getD false

/-- Block search of `get_current_speaker_config` (lines 216-223): the first
block of the listing whose `Name:` field equals the default device name. -/
def findSinkBlock (listing device_id : Str) : Option Str :=
  (splitOnStr listing (str "Sink #")).find? (fun block =>
    ((extract_field block (str "Name:")).map
      (fun name => name == device_id)).getD false)

/-- Source `get_current_speaker_config` (lines 194-250): query the default
sink name (spawn error is `CommandFailed`, non-success exit is
`InvalidState`), list sinks (only spawn errors are checked), locate the
default device's block (`DeviceNotFound` otherwise) and assemble the
configuration. -/
def get_current_speaker_config {W : Type} (g : Gateway W) (w : W) :
    Except ConfigError SpeakerConfig :=
  match g.getDefaultSink w with
  | .error e => .error (.CommandFailed e)
  | .ok output =>
    if !output.success then
      .error (.InvalidState (str "No default sink configured"))
    else
      let device_id := trimList output.stdout
      match g.listSinks w with
      | .error e => .error (.CommandFailed e)
      | .ok info_output =>
        match findSinkBlock info_output.stdout device_id with
        | none => .error (.DeviceNotFound device_id)
        | some sink_block =>
          .ok ⟨device_id, volumeOf sink_block, mutedOf sink_block⟩

/-- Source `validate_device_id` (lines 259-282). -/
def validate_device_id (device_id : Str) : Bool :=
  if device_id.isEmpty then false
  else if containsCharList device_id '\x00' then false
  else if containsSubList device_id (str "..") ||
      containsCharList device_id '/' || containsCharList device_id '\\' then false
  else if containsCharList device_id ' ' then false
  else true

/-- Outcome of one `configure_speaker` call: its result, the final world,
and the arguments of the `set-default-sink` commands issued, in order. -/
structure ConfigureOutcome (W : Type) where
  result : Except ConfigError Unit
  world : W
  issued : List Str

/-- Source `configure_speaker` (lines 126-188): validate the identifier,
snapshot the current configuration, resolve the identifier against the
detected devices by id or name, issue `set-default-sink` with the device
name, roll back to the snapshot's `device_id` (result unchecked) on spawn
error or non-success exit and fail with `CommandFailed`; on success re-read
the configuration and, when its `device_id` differs from the device name,
roll back and fail with `InvalidState`. -/
def configure_speaker {W : Type} (g : Gateway W) (w : W) (device_id : Str) :
    ConfigureOutcome W :=
  if device_id.isEmpty then
    ⟨.error (.InvalidState (str "Device ID cannot be empty")), w, []⟩
  else if containsCharList device_id '\x00' ||
      containsSubList device_id (str "..") then
    ⟨.error (.InvalidState (str "Invalid device ID format: " ++ device_id)), w, []⟩
  else
    match get_current_speaker_config g w with
    | .error e => ⟨.error e, w, []⟩
    | .ok original_config =>
      match detect_audio_devices g w with
      | .error e => ⟨.error e, w, []⟩
      | .ok devices =>
        match devices.find? (fun d => d.id == device_id || d.name == device_id) with
        | none => ⟨.error (.DeviceNotFound device_id), w, []⟩
        | some device =>
          match g.setDefaultSink w device.name with
          | (.error e, w1) =>
            let rolled := g.setDefaultSink w1 original_config.device_id
            ⟨.error (.CommandFailed e), rolled.2,
              [device.name, original_config.device_id]⟩
          | (.ok set_output, w1) =>
            if !set_output.success then
              let rolled := g.setDefaultSink w1 original_config.device_id
              ⟨.error (.CommandFailed set_output.stderr), rolled.2,
                [device.name, original_config.device_id]⟩
            else
              match get_current_speaker_config g w1 with
              | .error e => ⟨.error e, w1, [device.name]⟩
              | .ok config =>
                if config.device_id != device.name then
                  let rolled := g.setDefaultSink w1 original_config.device_id
                  ⟨.error (.InvalidState (str "Configuration not applied correctly")),
                    rolled.2, [device.name, original_config.device_id]⟩
                else ⟨.ok (), w1, [device.name]⟩

deriving instance DecidableEq for Except

/-- The per-block parser contract of spec section 4.1, stated as the spec
words it: the id is the first whitespace-delimited token of the block's
first line, a block whose id token is empty is dropped entirely, an absent
`Name:` field is synthesized as `sink-<id>`, an absent `Description:`
field falls back to the name, and the default flag is name equality with
the default-sink query result. -/
def detectSpecBlock (default_sink block : Str) : Option AudioDevice :=
  let id := ((rustLines block).head?.bind
    (fun line => (splitWhitespaceList line).head?)).getD []
  if id = [] then none
  else
    let name := (extract_field block (str "Name:")).getD (str "sink-" ++ id)
    some ⟨id, name, (extract_field block (str "Description:")).getD name,
      name == default_sink⟩

/-- The parser contract of spec section 4.1, stated as the spec words it:
split into blocks, skip whitespace-only blocks, parse the remaining blocks
in encounter order. -/
def detectSpec (raw default_sink : Str) : List AudioDevice :=
  ((splitOnStr raw (str "Sink #")).filter
    (fun b => !(trimList b).isEmpty)).filterMap (detectSpecBlock default_sink)

/-- Field extraction as claim C7 words it: the first line that, after
trimming LEADING whitespace, starts with the label; split once on the
first colon; trimmed remainder (empty when the line has no colon). -/
def extract_field_claim (text field : Str) : Option Str :=
  ((rustLines text).find?
      (fun line => startsWithList field (trimLeftList line))).map
    (fun line =>
      match splitOnceChar ':' line with
      | some p => trimList p.2
      | none => [])

/-- Recursive search for the first line whose form trimmed at BOTH ends
starts with the label (the matching rule the code actually applies). -/
def findLabelLine (field : Str) : List Str → Option Str
  | [] => none
  | line :: rest =>
    if startsWithList field (trimList line) then some line
    else findLabelLine field rest

/-- Field extraction as amended for claim C7: the matched line is the
first one that, after trimming leading AND trailing whitespace, starts
with the label; the value is the trimmed remainder after the first colon. -/
def extract_field_amended (text field : Str) : Option Str :=
  (findLabelLine field (rustLines text)).map
    (fun line =>
      match splitOnceChar ':' line with
      | some p => trimList p.2
      | none => [])

/-- The sink-listing fixture of the spec's concrete scenario: two blocks,
`Sink #0` (alsa_output.a, Speakers, unmuted, 50%) and `Sink #1`
(alsa_output.b, Headphones, muted, 80%). -/
def fixtureListing : Str :=
  str "Sink #0\n\tName: alsa_output.a\n\tDescription: Speakers\n\tMute: no\n\tVolume: 50% / 50%\nSink #1\n\tName: alsa_output.b\n\tDescription: Headphones\n\tMute: yes\n\tVolume: 80% / 80%\n"

/-- The `Sink #1` block of the fixture, as produced by the block split. -/
def fixtureBlockB : Str :=
  str "1\n\tName: alsa_output.b\n\tDescription: Headphones\n\tMute: yes\n\tVolume: 80% / 80%\n"

/-- Fixture gateway: listing and default-sink queries succeed, the default
is `alsa_output.b`, and the mutating command succeeds. -/
def gwFix : Gateway Unit :=
  ⟨fun _ => .ok ⟨true, fixtureListing, []⟩,
   fun _ => .ok ⟨true, str "alsa_output.b", []⟩,
   fun _ _ => (.ok ⟨true, [], []⟩, ())⟩

/-- Gateway whose mutating `set-default-sink` command exits non-success
with diagnostic text `boom`; the queries behave as in `gwFix`. -/
def gwSetFail : Gateway Unit :=
  ⟨fun _ => .ok ⟨true, fixtureListing, []⟩,
   fun _ => .ok ⟨true, str "alsa_output.b", []⟩,
   fun _ _ => (.ok ⟨false, [], str "boom"⟩, ())⟩

/-- Gateway whose default-sink query exits non-success. -/
def gwNoDefault : Gateway Unit :=
  ⟨fun _ => .ok ⟨true, fixtureListing, []⟩,
   fun _ => .ok ⟨false, [], []⟩,
   fun _ _ => (.ok ⟨true, [], []⟩, ())⟩

/-- Gateway whose default-sink query names a device absent from the
listing. -/
def gwGhost : Gateway Unit :=
  ⟨fun _ => .ok ⟨true, fixtureListing, []⟩,
   fun _ => .ok ⟨true, str "ghost", []⟩,
   fun _ _ => (.ok ⟨true, [], []⟩, ())⟩

/-- Gateway whose default-sink query exits non-success with junk stdout,
while the listing succeeds. -/
def gwDefFail : Gateway Unit :=
  ⟨fun _ => .ok ⟨true, fixtureListing, []⟩,
   fun _ => .ok ⟨false, str "junk", []⟩,
   fun _ _ => (.ok ⟨true, [], []⟩, ())⟩

/-- Gateway whose sink-listing command exits non-success with empty
stdout, while the default-sink query succeeds. -/
def gwListFail : Gateway Unit :=
  ⟨fun _ => .ok ⟨false, [], str "err"⟩,
   fun _ => .ok ⟨true, str "alsa_output.b", []⟩,
   fun _ _ => (.ok ⟨true, [], []⟩, ())⟩

/-- A successful block parse yields a nonempty id and a default flag that
is exactly name-equality with the default-sink name. -/
theorem parseSinkBlock_props {ds b : Str} {d : AudioDevice}
    (h : parseSinkBlock ds b = some d) :
    d.id.isEmpty = false ∧ d.is_default = (d.name == ds) := by
  unfold parseSinkBlock at h
  by_cases ht : (trimList b).isEmpty
  · simp [ht] at h
  · rcases hid : ((rustLines b).head?.bind
        (fun line => (splitWhitespaceList line).head?)).getD [] with _ | ⟨c, cs⟩
    · simp [ht, hid] at h
    · simp [ht, hid] at h
      rcases h with rfl
      exact ⟨rfl, rfl⟩

/-- Every parsed device has a nonempty id and a default flag that is
name-equality with the default-sink name. -/
theorem parseSinks_mem {raw ds : Str} {d : AudioDevice}
    (h : d ∈ parseSinks raw ds) :
    d.id.isEmpty = false ∧ d.is_default = (d.name == ds) := by
  unfold parseSinks at h
  rcases List.mem_filterMap.mp h with ⟨b, _, hb⟩
  exact parseSinkBlock_props hb

/-- Filtering first and then mapping a partial function agrees with
mapping the guarded partial function directly. -/
theorem filterMap_filter_eq {α β : Type} (p : α → Bool) (f g : α → Option β)
    (hg : ∀ b, g b = if p b then f b else none) (l : List α) :
    l.filterMap g = (l.filter p).filterMap f := by
  induction l with
  | nil => rfl
  | cons b t ih =>
    by_cases hb : p b <;>
      simp [List.filterMap_cons, List.filter_cons, hb, hg b, ih]

/-- The code's block parse is the spec's block parse guarded by the
whitespace-only skip. -/
theorem parseSinkBlock_eq (ds b : Str) :
    parseSinkBlock ds b =
      if !(trimList b).isEmpty then detectSpecBlock ds b else none := by
  unfold parseSinkBlock detectSpecBlock
  by_cases h : (trimList b).isEmpty
  · simp [h]
  · rcases hid : ((rustLines b).head?.bind
        (fun line => (splitWhitespaceList line).head?)).getD [] with _ | ⟨c, cs⟩
    · simp [h, hid]
    · simp [h, hid]

/-- The line search of `extract_field` is the recursive label search. -/
theorem find_eq_findLabelLine (field : Str) (l : List Str) :
    l.find? (fun line => startsWithList field (trimList line)) =
      findLabelLine field l := by
  induction l with
  | nil => rfl
  | cons line rest ih =>
    unfold findLabelLine
    by_cases h : startsWithList field (trimList line) <;>
      simp [List.find?_cons, h, ih]

/-- Clamping into `[0, 100]` always lands in `[0, 100]`. -/
theorem clamp_bound (v : Int) :
    0 ≤ max 0 (min 100 v) ∧ max 0 (min 100 v) ≤ 100 :=
  ⟨le_max_left 0 _, max_le (by norm_num) (min_le_left 100 v)⟩

/-- The validator is the negated disjunction of its six rejection
conditions. -/
theorem validate_device_id_eq (s : Str) :
    validate_device_id s =
      !(s.isEmpty || containsCharList s '\x00' || containsSubList s (str "..") ||
        containsCharList s '/' || containsCharList s '\\' ||
        containsCharList s ' ') := by
  unfold validate_device_id
  by_cases h1 : s.isEmpty <;> by_cases h2 : containsCharList s '\x00' <;>
    by_cases h3 : containsSubList s (str "..") <;>
    by_cases h4 : containsCharList s '/' <;>
    by_cases h5 : containsCharList s '\\' <;>
    by_cases h6 : containsCharList s ' ' <;>
    simp [h1, h2, h3, h4, h5, h6]

/-- C8: the identifier validator is a pure predicate returning false
exactly on the empty string, a null byte, a `..` substring, a slash, a
backslash or a space, and true otherwise; in particular it rejects "",
"../x" and "a b" and accepts "device-123". -/
theorem C8_validator_characterization (s : Str) :
    (validate_device_id s = false ↔
      (s = [] ∨ containsCharList s '\x00' = true ∨
       containsSubList s (str "..") = true ∨ containsCharList s '/' = true ∨
       containsCharList s '\\' = true ∨ containsCharList s ' ' = true)) ∧
    validate_device_id (str "") = false ∧
    validate_device_id (str "../x") = false ∧
    validate_device_id (str "a b") = false ∧
    validate_device_id (str "device-123") = true := by
  refine ⟨?_, by decide, by decide, by decide, by decide⟩
  rw [validate_device_id_eq]
  simp only [List.isEmpty_iff, Bool.not_eq_false', Bool.or_eq_true]
  tauto

/-- C7 counterexample: with the label `"Name: "` (trailing space) and the
line `" Name: "`, the code finds no matching line because it trims the
line at both ends before the starts-with test, while the claim's
leading-trim-only rule matches the line and extracts an empty value. -/
theorem C7_counterexample :
    extract_field (str " Name: ") (str "Name: ") ≠
      extract_field_claim (str " Name: ") (str "Name: ") ∧
    extract_field (str " Name: ") (str "Name: ") = none ∧
    extract_field_claim (str " Name: ") (str "Name: ") = some [] := by
  refine ⟨by decide, by decide, by decide⟩

/-- C7 amended: field extraction locates the first line that, after
trimming leading AND trailing whitespace, starts with the label, splits
that line once on its first colon and returns the trimmed remainder; a
text with no such line yields no field, and on the unit fixture
extracting `Name:` yields `my-device`, `Description:` yields `My Device`,
and `NotFound:` yields field absent. -/
theorem C7_extract_field_amended (text field : Str) :
    extract_field text field = extract_field_amended text field ∧
    extract_field (str "Name: my-device\nDescription: My Device\n")
      (str "Name:") = some (str "my-device") ∧
    extract_field (str "Name: my-device\nDescription: My Device\n")
      (str "Description:") = some (str "My Device") ∧
    extract_field (str "Name: my-device\nDescription: My Device\n")
      (str "NotFound:") = none := by
  refine ⟨?_, by decide, by decide, by decide⟩
  unfold extract_field extract_field_amended
  rw [find_eq_findLabelLine]

/-- C2: on the two-block fixture with default sink `alsa_output.b`,
detection parses exactly two devices, device `1` default and device `0`
not, and the configuration reader yields volume 80, muted true and
device_id `alsa_output.b`. -/
theorem C2_fixture_scenario :
    detect_audio_devices gwFix () = .ok
      [⟨str "0", str "alsa_output.a", str "Speakers", false⟩,
       ⟨str "1", str "alsa_output.b", str "Headphones", true⟩] ∧
    get_current_speaker_config gwFix () =
      .ok ⟨str "alsa_output.b", 80, true⟩ := by
  refine ⟨by decide, by decide⟩

/-- C6: the parser equals the spec's block-wise contract (whitespace-only
blocks skipped, ids taken from the first token of the first line, blocks
with empty id token dropped, `sink-<id>` name synthesis, description
fallback to name, block-encounter order), never produces a device with an
empty id, and maps an empty listing to the empty (non-error) device
sequence. -/
theorem C6_parser_contract (raw ds : Str) :
    parseSinks raw ds = detectSpec raw ds ∧
    (∀ d ∈ parseSinks raw ds, d.id.isEmpty = false) ∧
    parseSinks [] ds = [] := by
  refine ⟨?_, fun d hd => (parseSinks_mem hd).1, rfl⟩
  unfold parseSinks detectSpec
  exact filterMap_filter_eq _ _ _ (fun b => parseSinkBlock_eq ds b) _

/-- C4: when both gateway commands spawn, the configuration reader fails
with InvalidState("No default sink configured") exactly when the
default-sink query exits non-success, fails with DeviceNotFound carrying
the default name when no listing block has a matching Name: field, and in
every other case returns a fully constructed SpeakerConfig. -/
theorem C4_reader_contract {W : Type} (g : Gateway W) (w : W)
    (dout lout : CmdOutput)
    (hd : g.getDefaultSink w = .ok dout)
    (hl : g.listSinks w = .ok lout) :
    (dout.success = false →
      get_current_speaker_config g w =
        .error (.InvalidState (str "No default sink configured"))) ∧
    (dout.success = true →
      findSinkBlock lout.stdout (trimList dout.stdout) = none →
      get_current_speaker_config g w =
        .error (.DeviceNotFound (trimList dout.stdout))) ∧
    (∀ b, dout.success = true →
      findSinkBlock lout.stdout (trimList dout.stdout) = some b →
      get_current_speaker_config g w =
        .ok ⟨trimList dout.stdout, volumeOf b, mutedOf b⟩) := by
  refine ⟨?_, ?_, ?_⟩
  · intro hs
    unfold get_current_speaker_config
    rw [hd]
    simp [hs]
  · intro hs hb
    unfold get_current_speaker_config
    rw [hd]
    simp [hs, hl, hb]
  · intro b hs hb
    unfold get_current_speaker_config
    rw [hd]
    simp [hs, hl, hb]

/-- C4 witness: the three reader outcomes at concrete gateways — failed
default query, default name absent from the listing, and the fixture. -/
theorem C4_witness :
    get_current_speaker_config gwNoDefault () =
      .error (.InvalidState (str "No default sink configured")) ∧
    get_current_speaker_config gwGhost () =
      .error (.DeviceNotFound (str "ghost")) ∧
    get_current_speaker_config gwFix () =
      .ok ⟨str "alsa_output.b", 80, true⟩ := by
  refine ⟨?_, ?_, ?_⟩
  · exact (C4_reader_contract gwNoDefault () ⟨false, [], []⟩
      ⟨true, fixtureListing, []⟩ rfl rfl).1 rfl
  · exact (C4_reader_contract gwGhost () ⟨true, str "ghost", []⟩
      ⟨true, fixtureListing, []⟩ rfl rfl).2.1 rfl (by decide)
  · exact (C4_reader_contract gwFix () ⟨true, str "alsa_output.b", []⟩
      ⟨true, fixtureListing, []⟩ rfl rfl).2.2 fixtureBlockB rfl (by decide)

/-- C5: whenever the reader succeeds, the reported volume is the clamp
into [0, 100] of the last whitespace-delimited token of the text
preceding the first percent sign of the located block's Volume: field,
parsed as a 32-bit integer with 100 as the fallback on absence or parse
failure; consequently 0 <= volume <= 100. -/
theorem C5_volume_computation {W : Type} (g : Gateway W) (w : W)
    (cfg : SpeakerConfig)
    (h : get_current_speaker_config g w = .ok cfg) :
    (∃ dout lout b, g.getDefaultSink w = .ok dout ∧ g.listSinks w = .ok lout ∧
      findSinkBlock lout.stdout (trimList dout.stdout) = some b ∧
      cfg.volume = max 0 (min 100
        (((extract_field b (str "Volume:")).bind (fun vol_line =>
          (splitWhitespaceList
            ((splitOnStr vol_line (str "%")).headD [])).getLast?.bind
            parseI32)).getD 100))) ∧
    0 ≤ cfg.volume ∧ cfg.volume ≤ 100 := by
  unfold get_current_speaker_config at h
  rcases hd : g.getDefaultSink w with e | dout <;> rw [hd] at h
  · simp at h
  by_cases hs : dout.success
  · rcases hl : g.listSinks w with e | lout <;> rw [hl] at h
    · simp [hs] at h
    · simp only [hs, Bool.not_true, Bool.false_eq_true, if_false] at h
      rcases hb : findSinkBlock lout.stdout (trimList dout.stdout) with _ | b <;>
        rw [hb] at h
      · simp at h
      · simp only [Except.ok.injEq] at h
        rcases h with rfl
        exact ⟨⟨dout, lout, b, rfl, rfl, hb, rfl⟩, clamp_bound _⟩
  · simp [hs] at h

/-- C5 witness: the bound instantiated at the fixture reader result. -/
theorem C5_witness :
    0 ≤ (SpeakerConfig.mk (str "alsa_output.b") 80 true).volume ∧
    (SpeakerConfig.mk (str "alsa_output.b") 80 true).volume ≤ 100 :=
  (C5_volume_computation gwFix () ⟨str "alsa_output.b", 80, true⟩ (by decide)).2

/-- C9: a non-success exit of the default-sink query does not fail
detection: the parsed list is returned with the default name taken as the
empty string, so a device is marked default only when its parsed name is
empty. -/
theorem C9_detect_survives_default_failure {W : Type} (g : Gateway W) (w : W)
    (lout dout : CmdOutput)
    (hl : g.listSinks w = .ok lout) (hls : lout.success = true)
    (hd : g.getDefaultSink w = .ok dout) (hds : dout.success = false) :
    detect_audio_devices g w = .ok (parseSinks lout.stdout []) ∧
    ∀ d ∈ parseSinks lout.stdout [], d.is_default = (d.name == ([] : Str)) := by
  constructor
  · unfold detect_audio_devices
    rw [hl]
    simp [hls, hd, hds]
  · intro d hmem
    exact (parseSinks_mem hmem).2

/-- C9 witness: detection succeeds on the fixture listing although the
default-sink query exits non-success. -/
theorem C9_witness :
    detect_audio_devices gwDefFail () = .ok (parseSinks fixtureListing []) ∧
    ∀ d ∈ parseSinks fixtureListing [], d.is_default = (d.name == ([] : Str)) :=
  C9_detect_survives_default_failure gwDefFail () ⟨true, fixtureListing, []⟩
    ⟨false, str "junk", []⟩ rfl rfl rfl rfl

/-- C10: the reader never inspects the exit status of the sink-listing
command: with a successful default query and a non-success listing exit it
cannot return CommandFailed, and when the (possibly empty) listing text
has no block matching the default name the failure surfaces as
DeviceNotFound carrying that name. -/
theorem C10_reader_ignores_listing_status {W : Type} (g : Gateway W) (w : W)
    (dout lout : CmdOutput)
    (hd : g.getDefaultSink w = .ok dout) (hds : dout.success = true)
    (hl : g.listSinks w = .ok lout) (_hls : lout.success = false) :
    (∀ msg, get_current_speaker_config g w ≠ .error (.CommandFailed msg)) ∧
    (findSinkBlock lout.stdout (trimList dout.stdout) = none →
      get_current_speaker_config g w =
        .error (.DeviceNotFound (trimList dout.stdout))) := by
  refine ⟨?_, ?_⟩
  · intro msg
    unfold get_current_speaker_config
    rw [hd]
    rcases hb : findSinkBlock lout.stdout (trimList dout.stdout) with _ | b <;>
      simp [hds, hl, hb]
  · intro hb
    unfold get_current_speaker_config
    rw [hd]
    simp [hds, hl, hb]

/-- C10 witness: with a failed listing command (empty stdout) and default
name alsa_output.b, the reader returns DeviceNotFound, not CommandFailed
carrying the listing's stderr. -/
theorem C10_witness :
    get_current_speaker_config gwListFail () =
      .error (.DeviceNotFound (str "alsa_output.b")) ∧
    get_current_speaker_config gwListFail () ≠
      .error (.CommandFailed (str "err")) := by
  refine ⟨?_, ?_⟩
  · exact (C10_reader_ignores_listing_status gwListFail ()
      ⟨true, str "alsa_output.b", []⟩ ⟨false, [], str "err"⟩
      rfl rfl rfl rfl).2 (by decide)
  · exact (C10_reader_ignores_listing_status gwListFail ()
      ⟨true, str "alsa_output.b", []⟩ ⟨false, [], str "err"⟩
      rfl rfl rfl rfl).1 (str "err")

/-- C3: an empty identifier, one containing a null byte or one containing
the substring `..` makes configure fail with InvalidState independently of
the gateway, with no set-default command issued and the world unchanged;
an identifier passing that check that matches no detected device's id or
name makes it fail with DeviceNotFound carrying the supplied string, again
with no set-default command issued and the world unchanged, so the
configuration observable via the reader is unchanged from its pre-call
value. -/
theorem C3_reject_without_mutation {W : Type} (g : Gateway W) (w : W)
    (s : Str) :
    ((s = [] ∨ containsCharList s '\x00' = true ∨
        containsSubList s (str "..") = true) →
      ∃ msg, configure_speaker g w s = ⟨.error (.InvalidState msg), w, []⟩ ∧
        get_current_speaker_config g (configure_speaker g w s).world =
          get_current_speaker_config g w) ∧
    (∀ oc devs, s ≠ [] → containsCharList s '\x00' = false →
      containsSubList s (str "..") = false →
      get_current_speaker_config g w = .ok oc →
      detect_audio_devices g w = .ok devs →
      devs.find? (fun d => d.id == s || d.name == s) = none →
      configure_speaker g w s = ⟨.error (.DeviceNotFound s), w, []⟩ ∧
        get_current_speaker_config g (configure_speaker g w s).world =
          get_current_speaker_config g w) := by
  constructor
  · intro hbad
    rcases hbad with rfl | hnull | hdd
    · exact ⟨str "Device ID cannot be empty", rfl, rfl⟩
    · rcases s with _ | ⟨c, cs⟩
      · exact absurd hnull (by decide)
      · refine ⟨str "Invalid device ID format: " ++ (c :: cs), ?_, ?_⟩ <;>
          simp [configure_speaker, hnull]
    · rcases s with _ | ⟨c, cs⟩
      · exact absurd hdd (by decide)
      · refine ⟨str "Invalid device ID format: " ++ (c :: cs), ?_, ?_⟩ <;>
          simp [configure_speaker, hdd]
  · intro oc devs hne hnull hdd hoc hdet hfind
    rcases s with _ | ⟨c, cs⟩
    · exact absurd rfl hne
    · constructor <;>
        simp [configure_speaker, hnull, hdd, hoc, hdet, hfind]

/-- C3 witness: a path-traversal identifier is rejected with InvalidState
and an unknown identifier with DeviceNotFound, both leaving the world and
the issued-command list empty on the fixture gateway. -/
theorem C3_witness :
    (∃ msg, configure_speaker gwFix () (str "../../etc/passwd") =
        ⟨.error (.InvalidState msg), (), []⟩ ∧
      get_current_speaker_config gwFix
          (configure_speaker gwFix () (str "../../etc/passwd")).world =
        get_current_speaker_config gwFix ()) ∧
    configure_speaker gwFix () (str "nonexistent-id-xyz") =
      ⟨.error (.DeviceNotFound (str "nonexistent-id-xyz")), (), []⟩ := by
  refine ⟨?_, ?_⟩
  · exact (C3_reject_without_mutation gwFix () (str "../../etc/passwd")).1
      (Or.inr (Or.inr (by decide)))
  · exact ((C3_reject_without_mutation gwFix () (str "nonexistent-id-xyz")).2
      ⟨str "alsa_output.b", 80, true⟩
      [⟨str "0", str "alsa_output.a", str "Speakers", false⟩,
       ⟨str "1", str "alsa_output.b", str "Headphones", true⟩]
      (by decide) (by decide) (by decide) (by decide) (by decide)
      (by decide)).1

/-- C1: once configure has resolved the identifier to a device (with a
snapshot oc of the pre-call configuration), a spawn failure or non-success
exit of the set-default command makes it re-issue set-default with the
snapshot's device_id and fail with CommandFailed carrying the diagnostic
text; a successful mutation whose re-read device_id differs from the
device name makes it roll back and fail with
InvalidState("Configuration not applied correctly"); and it returns
success only when the re-read device_id equals the device name. -/
theorem C1_apply_verify_rollback {W : Type} (g : Gateway W) (w : W) (s : Str)
    (oc : SpeakerConfig) (devs : List AudioDevice) (dev : AudioDevice)
    (hne : s ≠ [])
    (hnull : containsCharList s '\x00' = false)
    (hdd : containsSubList s (str "..") = false)
    (hoc : get_current_speaker_config g w = .ok oc)
    (hdet : detect_audio_devices g w = .ok devs)
    (hfind : devs.find? (fun d => d.id == s || d.name == s) = some dev) :
    (∀ e w1, g.setDefaultSink w dev.name = (.error e, w1) →
      (configure_speaker g w s).result = .error (.CommandFailed e) ∧
      (configure_speaker g w s).issued = [dev.name, oc.device_id]) ∧
    (∀ out w1, g.setDefaultSink w dev.name = (.ok out, w1) →
      out.success = false →
      (configure_speaker g w s).result = .error (.CommandFailed out.stderr) ∧
      (configure_speaker g w s).issued = [dev.name, oc.device_id]) ∧
    (∀ out w1 cfg, g.setDefaultSink w dev.name = (.ok out, w1) →
      out.success = true → get_current_speaker_config g w1 = .ok cfg →
      cfg.device_id ≠ dev.name →
      (configure_speaker g w s).result =
        .error (.InvalidState (str "Configuration not applied correctly")) ∧
      (configure_speaker g w s).issued = [dev.name, oc.device_id]) ∧
    ((configure_speaker g w s).result = .ok () →
      ∃ out w1 cfg, g.setDefaultSink w dev.name = (.ok out, w1) ∧
        out.success = true ∧ get_current_speaker_config g w1 = .ok cfg ∧
        cfg.device_id = dev.name) := by
  rcases s with _ | ⟨c, cs⟩
  · exact absurd rfl hne
  refine ⟨?_, ?_, ?_, ?_⟩
  · intro e w1 hset
    constructor <;>
      simp [configure_speaker, hnull, hdd, hoc, hdet, hfind, hset]
  · intro out w1 hset hsf
    constructor <;>
      simp [configure_speaker, hnull, hdd, hoc, hdet, hfind, hset, hsf]
  · intro out w1 cfg hset hst hre hneq
    constructor <;>
      simp [configure_speaker, hnull, hdd, hoc, hdet, hfind, hset, hst, hre,
        bne_iff_ne, hneq]
  · intro hok
    rcases hset : g.setDefaultSink w dev.name with ⟨r, w1⟩
    rcases r with e | out
    · simp [configure_speaker, hnull, hdd, hoc, hdet, hfind, hset] at hok
    · by_cases hst : out.success
      · rcases hre : get_current_speaker_config g w1 with e2 | cfg
        · simp [configure_speaker, hnull, hdd, hoc, hdet, hfind, hset, hst,
            hre] at hok
        · by_cases hneq : cfg.device_id = dev.name
          · exact ⟨out, w1, cfg, rfl, hst, hre, hneq⟩
          · simp [configure_speaker, hnull, hdd, hoc, hdet, hfind, hset, hst,
              hre, bne_iff_ne, hneq] at hok
      · simp [configure_speaker, hnull, hdd, hoc, hdet, hfind, hset,
          hst] at hok

/-- C1 witness: on the fixture with a set-default command that exits
non-success with diagnostic `boom`, configuring `alsa_output.a` issues the
mutation and then the rollback to the snapshot's `alsa_output.b`, and
fails with CommandFailed("boom"). -/
theorem C1_witness :
    (configure_speaker gwSetFail () (str "alsa_output.a")).result =
      .error (.CommandFailed (str "boom")) ∧
    (configure_speaker gwSetFail () (str "alsa_output.a")).issued =
      [str "alsa_output.a", str "alsa_output.b"] :=
  (C1_apply_verify_rollback gwSetFail () (str "alsa_output.a")
      ⟨str "alsa_output.b", 80, true⟩
      [⟨str "0", str "alsa_output.a", str "Speakers", false⟩,
       ⟨str "1", str "alsa_output.b", str "Headphones", true⟩]
      ⟨str "0", str "alsa_output.a", str "Speakers", false⟩
      (by decide) (by decide) (by decide) (by decide) (by decide)
      (by decide)).2.1
    ⟨false, [], str "boom"⟩ () rfl rfl

end AudioSpeakers
